import Mathlib

/-!
Verification of the pixel-art rendering core of the repository: the shape
geometry generator and its bounded path cache, the viewport culler, the
three-pass layered renderer (screen and raster-export paths), the bulb
radial-gradient definition, image-import sampling and validation, and
pointer-to-grid coordinate conversion.

Numbers that are IEEE doubles in the source are modelled as rationals.
Hexagon vertices involve the cosine and sine of multiples of 60 degrees,
which are represented exactly in the ring of rationals adjoined with the
square root of 3.  Path strings built from numeric templates are modelled
as lists of path commands carrying those numbers; custom paths, which the
source passes through verbatim as strings, stay strings.
-/

namespace PixelPop

/-- A number of the form a + b * sqrt 3.  Since sqrt 3 is irrational the
representation is unique, so decidable equality of the representation
agrees with equality of the represented reals. -/
structure Q3 where
  a : ℚ
  b : ℚ
deriving DecidableEq

/-- Embed a rational as a Q3 value. -/
def qq (x : ℚ) : Q3 := ⟨x, 0⟩

/-- Sum of two Q3 values. -/
def Q3.addQ (p q : Q3) : Q3 := ⟨p.a + q.a, p.b + q.b⟩

/-- Scale a Q3 value by a rational. -/
def Q3.smul (q : ℚ) (p : Q3) : Q3 := ⟨q * p.a, q * p.b⟩

/-- The cell shapes understood by createShapePath (SVGRenderer.jsx).  The
source switches on a string; anything other than the five named shapes
falls through to the rectangle branch. -/
inductive Shape
  | rectangle
  | circle
  | diamond
  | triangle
  | hexagon
  | custom
deriving DecidableEq

/-- The cornerRadius prop of SVGRenderer: an enabled flag and one
percentage per corner. -/
structure CornerRadius where
  enabled : Bool
  topLeft : ℚ
  topRight : ℚ
  bottomLeft : ℚ
  bottomRight : ℚ
deriving DecidableEq

/-- The customShape prop of SVGRenderer: a raw SVG path string and a
viewBox string.  createShapePath uses only the path. -/
structure CustomShape where
  path : String
  viewBox : String
deriving DecidableEq

/-- One SVG path command with exact coordinates. -/
inductive PathCmd
  | move (x y : Q3)
  | line (x y : Q3)
  | hline (x : Q3)
  | vline (y : Q3)
  | arc (rx ry rot : Q3) (largeArc sweep : Bool) (x y : Q3)
  | quad (cx cy x y : Q3)
  | close
deriving DecidableEq

/-- A computed shape path: either a list of commands built by the
generator, or a caller-supplied custom path string taken verbatim. -/
inductive PathData
  | cmds (l : List PathCmd)
  | raw (s : String)
deriving DecidableEq

/-- Cosine of i * 60 degrees, for the hexagon vertex loop
(Math.cos(i * Math.PI / 3) in the source). -/
def hexCos : ℕ → Q3
  | 0 => ⟨1, 0⟩
  | 1 => ⟨1/2, 0⟩
  | 2 => ⟨-(1/2), 0⟩
  | 3 => ⟨-1, 0⟩
  | 4 => ⟨-(1/2), 0⟩
  | _ => ⟨1/2, 0⟩

/-- Sine of i * 60 degrees, for the hexagon vertex loop
(Math.sin(i * Math.PI / 3) in the source); sin 60 = sqrt 3 / 2. -/
def hexSin : ℕ → Q3
  | 0 => ⟨0, 0⟩
  | 1 => ⟨0, 1/2⟩
  | 2 => ⟨0, 1/2⟩
  | 3 => ⟨0, 0⟩
  | 4 => ⟨0, -(1/2)⟩
  | _ => ⟨0, -(1/2)⟩

/-- The rounded-rectangle path of createShapePath (SVGRenderer.jsx lines
556-567), given the four per-corner radii already resolved to lengths. -/
def roundedRectPath (x y size tl tr bl br : ℚ) : PathData :=
  PathData.cmds
    [PathCmd.move (qq (x + tl)) (qq y),
     PathCmd.hline (qq (x + size - tr)),
     PathCmd.quad (qq (x + size)) (qq y) (qq (x + size)) (qq (y + tr)),
     PathCmd.vline (qq (y + size - br)),
     PathCmd.quad (qq (x + size)) (qq (y + size)) (qq (x + size - br)) (qq (y + size)),
     PathCmd.hline (qq (x + bl)),
     PathCmd.quad (qq x) (qq (y + size)) (qq x) (qq (y + size - bl)),
     PathCmd.vline (qq (y + tl)),
     PathCmd.quad (qq x) (qq y) (qq (x + tl)) (qq y),
     PathCmd.close]

/-- The pure path computation of createShapePath (SVGRenderer.jsx lines
504-573): custom shapes with a non-empty path are returned verbatim;
otherwise the switch on the shape builds the outline, with rectangle as
the default branch. -/
def computeShapePath (x y size : ℚ) (shape : Shape) (cr : CornerRadius)
    (cs : CustomShape) : PathData :=
  if shape = Shape.custom ∧ cs.path ≠ "" then
    PathData.raw cs.path
  else
    match shape with
    | Shape.circle =>
      let radius := size / 2
      let cx := x + radius
      PathData.cmds
        [PathCmd.move (qq cx) (qq y),
         PathCmd.arc (qq radius) (qq radius) (qq 0) true true (qq (cx - 1/1000)) (qq y),
         PathCmd.close]
    | Shape.diamond =>
      let mid := size / 2
      PathData.cmds
        [PathCmd.move (qq (x + mid)) (qq y),
         PathCmd.line (qq (x + size)) (qq (y + mid)),
         PathCmd.line (qq (x + mid)) (qq (y + size)),
         PathCmd.line (qq x) (qq (y + mid)),
         PathCmd.close]
    | Shape.triangle =>
      PathData.cmds
        [PathCmd.move (qq (x + size / 2)) (qq y),
         PathCmd.line (qq (x + size)) (qq (y + size)),
         PathCmd.line (qq x) (qq (y + size)),
         PathCmd.close]
    | Shape.hexagon =>
      let radius := size / 2
      let cx := x + radius
      let cy := y + radius
      PathData.cmds
        (((List.range 6).map (fun i =>
          let px := Q3.addQ (qq cx) (Q3.smul radius (hexCos i))
          let py := Q3.addQ (qq cy) (Q3.smul radius (hexSin i))
          if i = 0 then PathCmd.move px py else PathCmd.line px py)) ++ [PathCmd.close])
    | _ =>
      if cr.enabled then
        roundedRectPath x y size
          (min (size * cr.topLeft / 100) (size / 2))
          (min (size * cr.topRight / 100) (size / 2))
          (min (size * cr.bottomLeft / 100) (size / 2))
          (min (size * cr.bottomRight / 100) (size / 2))
      else
        PathData.cmds
          [PathCmd.move (qq x) (qq y),
           PathCmd.hline (qq (x + size)),
           PathCmd.vline (qq (y + size)),
           PathCmd.hline (qq x),
           PathCmd.close]

/-- The cache key of createShapePath: the template string
x_y_size_shape_stringify(cornerRadius)_customPath, modelled as the tuple
of the values it stringifies (the stringification is injective on these
components). -/
structure PathKey where
  x : ℚ
  y : ℚ
  size : ℚ
  shape : Shape
  cr : CornerRadius
  csPath : String
deriving DecidableEq

/-- The cache capacity hard-coded in createShapePath. -/
def pathCacheLimit : ℕ := 1000

/-- A JS Map iterates its entries in insertion order; the module-level
pathCache is modelled as the list of its entries in that order, oldest
first. -/
abbrev PathCache := List (PathKey × PathData)

/-- Map.get/has on the path cache. -/
def cacheLookup (k : PathKey) : PathCache → Option PathData
  | [] => none
  | e :: rest => if e.1 = k then some e.2 else cacheLookup k rest

/-- The cache key built at SVGRenderer.jsx line 494 from the call
arguments. -/
def mkPathKey (x y size : ℚ) (shape : Shape) (cr : CornerRadius)
    (cs : CustomShape) : PathKey :=
  ⟨x, y, size, shape, cr, cs.path⟩

/-- createShapePath (SVGRenderer.jsx lines 492-586) as a function of the
cache state: on a hit the cached path is returned and the cache is
unchanged; on a miss the path is computed, appended (Map.set of a fresh
key appends in iteration order), and if the cache now exceeds its
capacity the first key in iteration order - the oldest insertion - is
deleted. -/
def createShapePath (cache : PathCache) (x y size : ℚ) (shape : Shape)
    (cr : CornerRadius) (cs : CustomShape) : PathData × PathCache :=
  let key := mkPathKey x y size shape cr cs
  match cacheLookup key cache with
  | some p => (p, cache)
  | none =>
    let p := computeShapePath x y size shape cr cs
    let c := cache ++ [(key, p)]
    if pathCacheLimit < c.length then (p, c.tail) else (p, c)

/-- The arguments of one createShapePath call. -/
structure PathArgs where
  x : ℚ
  y : ℚ
  size : ℚ
  shape : Shape
  cr : CornerRadius
  cs : CustomShape
deriving DecidableEq

/-- The cache state after one createShapePath call. -/
def stepCache (cache : PathCache) (a : PathArgs) : PathCache :=
  (createShapePath cache a.x a.y a.size a.shape a.cr a.cs).2

/-- The cache state after a sequence of createShapePath calls, starting
from the empty module-level Map. -/
def runCalls (calls : List PathArgs) : PathCache :=
  calls.foldl stepCache []

/-- The viewport state kept by SVGRenderer (left, top, width, height,
scale). -/
structure Viewport where
  left : ℚ
  top : ℚ
  width : ℚ
  height : ℚ
  scale : ℚ
deriving DecidableEq

/-- The visible cell-index window: startX/startY inclusive, endX/endY
exclusive. -/
structure VisibleRange where
  startX : ℤ
  endX : ℤ
  startY : ℤ
  endY : ℤ
deriving DecidableEq

/-- The visibleArea memo of SVGRenderer.jsx lines 424-437: raw floor/ceil
index range of the viewport, expanded by a 5-cell buffer, bounded below
by 0 and above by the grid dimensions. -/
def visibleArea (vp : Viewport) (pixelSize gridGap : ℚ)
    (gridWidth gridHeight : ℤ) : VisibleRange :=
  let cellSize := pixelSize + gridGap
  let buffer : ℤ := 5
  { startX := max 0 (⌊vp.left / cellSize⌋ - buffer)
    endX := min gridWidth (⌈(vp.left + vp.width) / cellSize⌉ + buffer)
    startY := max 0 (⌊vp.top / cellSize⌋ - buffer)
    endY := min gridHeight (⌈(vp.top + vp.height) / cellSize⌉ + buffer) }

/-- The visible range as worded by the spec: the raw index range of the
viewport, expanded by exactly 5 cells on every side, then clamped to
[0, gridWidth] x [0, gridHeight] (the index interval is intersected with
the grid's index interval). -/
def visibleAreaSpec (vp : Viewport) (pixelSize gridGap : ℚ)
    (gridWidth gridHeight : ℤ) : VisibleRange :=
  let cellSize := pixelSize + gridGap
  let rawStartX := ⌊vp.left / cellSize⌋
  let rawEndX := ⌈(vp.left + vp.width) / cellSize⌉
  let rawStartY := ⌊vp.top / cellSize⌋
  let rawEndY := ⌈(vp.top + vp.height) / cellSize⌉
  { startX := max (rawStartX - 5) 0
    endX := min (rawEndX + 5) gridWidth
    startY := max (rawStartY - 5) 0
    endY := min (rawEndY + 5) gridHeight }

/-- JS defaulting with the logical-or operator on a numeric field:
`v || d` is the default d when the field is absent (undefined) or when
its value is the falsy number 0. -/
def jsOrQ (v : Option ℚ) (d : ℚ) : ℚ :=
  match v with
  | none => d
  | some x => if x = 0 then d else x

/-- JS defaulting with the logical-or operator on a string field:
`v || d` is the default d when the field is absent or the empty string. -/
def jsOrS (v : Option String) (d : String) : String :=
  match v with
  | none => d
  | some s => if s = "" then d else s

/-- The glowSettings prop; absent fields are none. -/
structure GlowSettings where
  size : Option ℚ
  intensity : Option ℚ
  spread : Option ℚ
  offsetX : Option ℚ
  offsetY : Option ℚ
  opacity : Option ℚ
  blendMode : Option String
deriving DecidableEq

/-- The bulbSettings prop; absent fields are none. -/
structure BulbSettings where
  intensity : Option ℚ
  radius : Option ℚ
  positionX : Option ℚ
  positionY : Option ℚ
  color : Option String
  blendMode : Option String
deriving DecidableEq

/-- The radialGradient element with id bulbGradient (SVGRenderer.jsx
lines 809-827): center, radius, and the two stops. -/
structure BulbGradient where
  cx : ℚ
  cy : ℚ
  r : ℚ
  innerColor : String
  innerOpacity : ℚ
  outerColor : String
  outerOpacity : ℚ
deriving DecidableEq

/-- The bulbGradient definition as the source builds it, with JS
logical-or defaulting on every field. -/
def bulbGradient (bs : BulbSettings) : BulbGradient :=
  { cx := jsOrQ bs.positionX 50
    cy := jsOrQ bs.positionY 50
    r := jsOrQ bs.radius 50
    innerColor := jsOrS bs.color "#ffffff"
    innerOpacity := jsOrQ bs.intensity 0 / 100
    outerColor := jsOrS bs.color "#ffffff"
    outerOpacity := 0 }

/-- The bulb gradient as the claim words it: positionX, positionY and
radius take the default 50, and intensity the default 0, only when the
corresponding field is absent from the configuration. -/
def bulbGradientClaim (bs : BulbSettings) : BulbGradient :=
  { cx := bs.positionX.getD 50
    cy := bs.positionY.getD 50
    r := bs.radius.getD 50
    innerColor := jsOrS bs.color "#ffffff"
    innerOpacity := bs.intensity.getD 0 / 100
    outerColor := jsOrS bs.color "#ffffff"
    outerOpacity := 0 }

/-- The bulb gradient as the amended claim words it: positionX, positionY
and radius take the default 50, and intensity the default 0, when the
corresponding field is absent from the configuration or is present with
value 0. -/
def bulbGradientAmended (bs : BulbSettings) : BulbGradient :=
  { cx := match bs.positionX with
          | none => 50
          | some v => if v = 0 then 50 else v
    cy := match bs.positionY with
          | none => 50
          | some v => if v = 0 then 50 else v
    r := match bs.radius with
         | none => 50
         | some v => if v = 0 then 50 else v
    innerColor := jsOrS bs.color "#ffffff"
    innerOpacity := (match bs.intensity with
                     | none => (0:ℚ)
                     | some v => if v = 0 then 0 else v) / 100
    outerColor := jsOrS bs.color "#ffffff"
    outerOpacity := 0 }

/-- The three effect layers, in their composite order. -/
inductive Layer
  | glow
  | fill
  | bulb
deriving DecidableEq

/-- The geometry of one rendered element: a native SVG circle (used when
pixelShape is circle) or a path. -/
inductive Geom
  | circleG (cx cy r : ℚ)
  | pathG (d : PathData)
deriving DecidableEq

/-- The fill attribute of one rendered element: a flat color or a
reference to a gradient definition by id. -/
inductive FillSpec
  | color (c : String)
  | gradientRef (id : String)
deriving DecidableEq

/-- One SVG element emitted by renderPixels. -/
structure RenderElem where
  layer : Layer
  gx : ℤ
  gy : ℤ
  geom : Geom
  fill : FillSpec
  filterRef : Option String
  blendMode : Option String
deriving DecidableEq

/-- The per-render configuration of SVGRenderer: the props renderPixels
reads. -/
structure RenderConfig where
  pixelSize : ℚ
  gridGap : ℚ
  pixelShape : Shape
  cornerRadius : CornerRadius
  customShape : CustomShape
  glowEnabled : Bool
  glowSettings : GlowSettings
  bulbEnabled : Bool
  bulbSettings : BulbSettings
  pixelData : List (List (Option String))

/-- The JS lookup pixelData[y]?.[x] followed by the truthiness test
`if (color)`: out-of-range indices give undefined, stored null gives
null, and the empty string is falsy; all three skip the cell. -/
def cellColor (grid : List (List (Option String))) (x y : ℤ) : Option String :=
  if 0 ≤ y ∧ 0 ≤ x then
    match grid.get? y.toNat with
    | none => none
    | some row =>
      match row.get? x.toNat with
      | none => none
      | some none => none
      | some (some c) => if c = "" then none else some c
  else none

/-- The glow-layer element for one cell (SVGRenderer.jsx lines 645-673). -/
def glowElem (cfg : RenderConfig) (x y : ℤ) (c : String) : RenderElem :=
  let cellSize := cfg.pixelSize + cfg.gridGap
  let xPos := x * cellSize + cfg.gridGap / 2
  let yPos := y * cellSize + cfg.gridGap / 2
  { layer := Layer.glow
    gx := x
    gy := y
    geom :=
      if cfg.pixelShape = Shape.circle then
        Geom.circleG (xPos + cfg.pixelSize / 2) (yPos + cfg.pixelSize / 2) (cfg.pixelSize / 2)
      else
        Geom.pathG (computeShapePath xPos yPos cfg.pixelSize cfg.pixelShape cfg.cornerRadius cfg.customShape)
    fill := FillSpec.color c
    filterRef := some "glowFilter"
    blendMode := some (jsOrS cfg.glowSettings.blendMode "source-over") }

/-- The crisp fill-layer element for one cell (SVGRenderer.jsx lines
619-643). -/
def fillElem (cfg : RenderConfig) (x y : ℤ) (c : String) : RenderElem :=
  let cellSize := cfg.pixelSize + cfg.gridGap
  let xPos := x * cellSize + cfg.gridGap / 2
  let yPos := y * cellSize + cfg.gridGap / 2
  { layer := Layer.fill
    gx := x
    gy := y
    geom :=
      if cfg.pixelShape = Shape.circle then
        Geom.circleG (xPos + cfg.pixelSize / 2) (yPos + cfg.pixelSize / 2) (cfg.pixelSize / 2)
      else
        Geom.pathG (computeShapePath xPos yPos cfg.pixelSize cfg.pixelShape cfg.cornerRadius cfg.customShape)
    fill := FillSpec.color c
    filterRef := none
    blendMode := none }

/-- The bulb highlight-layer element for one cell (SVGRenderer.jsx lines
675-703): the cell shape filled with a reference to the bulbGradient
definition, composited with the configured blend mode (default screen). -/
def bulbElem (cfg : RenderConfig) (x y : ℤ) (_c : String) : RenderElem :=
  let cellSize := cfg.pixelSize + cfg.gridGap
  let xPos := x * cellSize + cfg.gridGap / 2
  let yPos := y * cellSize + cfg.gridGap / 2
  { layer := Layer.bulb
    gx := x
    gy := y
    geom :=
      if cfg.pixelShape = Shape.circle then
        Geom.circleG (xPos + cfg.pixelSize / 2) (yPos + cfg.pixelSize / 2) (cfg.pixelSize / 2)
      else
        Geom.pathG (computeShapePath xPos yPos cfg.pixelSize cfg.pixelShape cfg.cornerRadius cfg.customShape)
    fill := FillSpec.gradientRef "bulbGradient"
    filterRef := none
    blendMode := some (jsOrS cfg.bulbSettings.blendMode "screen") }

/-- The cell loop of renderPixels (SVGRenderer.jsx lines 602-706),
generalized over the iteration order of the cells: for each cell with a
truthy color, push a glow element (if glow is enabled), a crisp element
(always) and a bulb element (if bulb is enabled) to the respective
per-layer array. -/
def renderPassLists (cfg : RenderConfig) :
    List (ℤ × ℤ) → List RenderElem × List RenderElem × List RenderElem
  | [] => ([], [], [])
  | c :: rest =>
    let r := renderPassLists cfg rest
    match cellColor cfg.pixelData c.1 c.2 with
    | none => r
    | some col =>
      (if cfg.glowEnabled then glowElem cfg c.1 c.2 col :: r.1 else r.1,
       fillElem cfg c.1 c.2 col :: r.2.1,
       if cfg.bulbEnabled then bulbElem cfg c.1 c.2 col :: r.2.2 else r.2.2)

/-- The element list returned by renderPixels for a given cell iteration
order: glow layer, then crisp layer, then bulb layer (SVGRenderer.jsx
line 708). -/
def renderPixelsOver (cfg : RenderConfig) (cells : List (ℤ × ℤ)) : List RenderElem :=
  let r := renderPassLists cfg cells
  r.1 ++ r.2.1 ++ r.2.2

/-- Row-major enumeration of the cells of the visible range, the
iteration order of the nested loops in renderPixels. -/
def visibleCells (va : VisibleRange) : List (ℤ × ℤ) :=
  ((List.range (va.endY - va.startY).toNat).map
      (fun (i : ℕ) => va.startY + (i : ℤ))).flatMap
    (fun y => ((List.range (va.endX - va.startX).toNat).map
      (fun (i : ℕ) => va.startX + (i : ℤ))).map (fun x => (x, y)))

/-- renderPixels itself: the generalized loop applied to the row-major
enumeration of the visible range. -/
def renderPixels (cfg : RenderConfig) (va : VisibleRange) : List RenderElem :=
  renderPixelsOver cfg (visibleCells va)

/-- One canvas drawing call issued by the raster export path: layer,
cell origin, and the color argument (drawBulbEffect takes no color). -/
structure DrawOp where
  layer : Layer
  xPos : ℚ
  yPos : ℚ
  color : Option String
deriving DecidableEq

/-- Row-major enumeration of the full grid, the iteration order of each
export pass in performExport. -/
def fullGridCells (gridWidth gridHeight : ℕ) : List (ℤ × ℤ) :=
  (List.range gridHeight).flatMap
    (fun (y : ℕ) => (List.range gridWidth).map (fun (x : ℕ) => ((x : ℤ), (y : ℤ))))

/-- One full-grid pass of performExport: every cell with a truthy color
produces one drawing call of the given layer at the cell origin. -/
def exportPass (l : Layer) (gridWidth gridHeight : ℕ)
    (grid : List (List (Option String))) (pixelSize gridGap : ℚ)
    (withColor : Bool) : List DrawOp :=
  (fullGridCells gridWidth gridHeight).filterMap (fun c =>
    (cellColor grid c.1 c.2).map (fun col =>
      { layer := l
        xPos := c.1 * (pixelSize + gridGap) + gridGap / 2
        yPos := c.2 * (pixelSize + gridGap) + gridGap / 2
        color := if withColor then some col else none }))

/-- The raster export path of performExport (App.jsx lines 715-759):
a glow pass over the whole grid (if glow is enabled), then the crisp
pass, then a bulb pass (if bulb is enabled), each a full row-major
sweep. -/
def exportOps (gridWidth gridHeight : ℕ) (grid : List (List (Option String)))
    (pixelSize gridGap : ℚ) (glowEnabled bulbEnabled : Bool) : List DrawOp :=
  (if glowEnabled then exportPass Layer.glow gridWidth gridHeight grid pixelSize gridGap true else []) ++
  exportPass Layer.fill gridWidth gridHeight grid pixelSize gridGap true ++
  (if bulbEnabled then exportPass Layer.bulb gridWidth gridHeight grid pixelSize gridGap false else [])

/-- One grid-overlay line element (an SVG line with a stroke). -/
structure GridLine where
  x1 : ℚ
  y1 : ℚ
  x2 : ℚ
  y2 : ℚ
  strokeWidth : ℚ
deriving DecidableEq

/-- The inclusive integer range a..b as a list. -/
def intRangeIncl (a b : ℤ) : List ℤ :=
  (List.range (b - a + 1).toNat).map (fun (i : ℕ) => a + (i : ℤ))

/-- The line list built by the gridLines memo (SVGRenderer.jsx lines
443-477): vertical lines at the cell boundaries startX..endX of the
visible range, horizontal lines at startY..endY, each a stroke of width
1 offset by half a unit. -/
def gridLinesList (pixelSize gridGap : ℚ) (va : VisibleRange)
    (totalWidth totalHeight : ℚ) : List GridLine :=
  let cellSize := pixelSize + gridGap
  ((intRangeIncl va.startX va.endX).map (fun x =>
    { x1 := x * cellSize - 1/2
      y1 := 0
      x2 := x * cellSize - 1/2
      y2 := totalHeight
      strokeWidth := 1 })) ++
  ((intRangeIncl va.startY va.endY).map (fun y =>
    { x1 := 0
      y1 := y * cellSize - 1/2
      x2 := totalWidth
      y2 := y * cellSize - 1/2
      strokeWidth := 1 }))

/-- The gridLines memo itself: null when showGrid is off. -/
def gridLines (showGrid : Bool) (pixelSize gridGap : ℚ) (va : VisibleRange)
    (totalWidth totalHeight : ℚ) : Option (List GridLine) :=
  if showGrid then some (gridLinesList pixelSize gridGap va totalWidth totalHeight) else none

/-- One child group of the SVG container, in document (painting) order. -/
inductive SvgChild
  | pixelsLayer (elems : List RenderElem)
  | interactionLayer
  | gridLayer (lines : List GridLine)
deriving DecidableEq

/-- The children of the SVG container in document order (SVGRenderer.jsx
lines 830-845): the pixels layer, the interaction layer, and - only when
showGrid is on - the grid layer last. -/
def svgChildren (cfg : RenderConfig) (showGrid : Bool) (va : VisibleRange)
    (totalWidth totalHeight : ℚ) : List SvgChild :=
  [SvgChild.pixelsLayer (renderPixels cfg va), SvgChild.interactionLayer] ++
  (match gridLines showGrid cfg.pixelSize cfg.gridGap va totalWidth totalHeight with
   | some lines => [SvgChild.gridLayer lines]
   | none => [])

/-- One RGBA pixel of the target-resolution image data. -/
structure RGBA where
  r : ℕ
  g : ℕ
  b : ℕ
  a : ℕ
deriving DecidableEq

/-- One sampled pixel handed to the quantizer. -/
structure SampledPixel where
  r : ℕ
  g : ℕ
  b : ℕ
  index : ℕ
deriving DecidableEq

/-- The sampling loop of handleImageImport (App.jsx lines 1043-1054),
with the running flattened index i / 4 made explicit: a pixel is pushed
exactly when its alpha strictly exceeds 128, tagged with its flattened
row-major position. -/
def samplePixelsFrom (idx : ℕ) : List RGBA → List SampledPixel
  | [] => []
  | p :: rest =>
    if 128 < p.a then
      ⟨p.r, p.g, p.b, idx⟩ :: samplePixelsFrom (idx + 1) rest
    else
      samplePixelsFrom (idx + 1) rest

/-- The sampled pixel list of handleImageImport over the row-major image
data of the target-resolution canvas. -/
def samplePixels (data : List RGBA) : List SampledPixel :=
  samplePixelsFrom 0 data

/-- The editor state that the import handler may touch. -/
structure ImportState where
  gridWidth : ℕ
  gridHeight : ℕ
  pixelGrid : List (List (Option String))
  colorHistory : List String
deriving DecidableEq

/-- The validation of handleImageImport (App.jsx line 1005):
targetWidth > 0 && targetHeight > 0 && colorLimit >= 2 && colorLimit <= 256,
where each value is parseInt of the corresponding setting and none models
NaN (every comparison with NaN is false). -/
def importSettingsValid (w h k : Option ℤ) : Bool :=
  (match w with
   | some v => decide (0 < v)
   | none => false) &&
  (match h with
   | some v => decide (0 < v)
   | none => false) &&
  (match k with
   | some v => decide (2 ≤ v)
   | none => false) &&
  (match k with
   | some v => decide (v ≤ 256)
   | none => false)

/-- handleImageImport (App.jsx lines 992-1116) restricted to what the
claim needs: if the parsed settings fail validation the handler returns
before any processing, leaving the state untouched; otherwise it runs
the processing steps (resizeGrid, image decode and resize, sampling,
kMeansClustering, grid and history update), abstracted here as the
function argument since they involve external image decoding and
utility modules outside src/.  The boolean records whether processing
(and hence the quantizer call) ran. -/
def handleImageImport (process : ImportState → ImportState)
    (st : ImportState) (w h k : Option ℤ) : ImportState × Bool :=
  if importSettingsValid w h k then (process st, true) else (st, false)

/-- The grid coordinates returned to the pointer handlers. -/
structure Coords where
  gridX : ℤ
  gridY : ℤ
  buttons : ℕ
deriving DecidableEq

/-- A DOM bounding client rect. -/
structure DomRect where
  left : ℚ
  top : ℚ
  width : ℚ
  height : ℚ
deriving DecidableEq

/-- A pointer event's fields read by getGridCoordinates. -/
structure PointerEvent where
  clientX : ℚ
  clientY : ℚ
  buttons : ℕ
deriving DecidableEq

/-- getGridCoordinates (SVGRenderer.jsx lines 177-207): with no SVG ref
it returns gridX = gridY = -1; otherwise it scales the client position
into the unscaled coordinate space, divides by the cell size, floors,
and clamps into [0, gridWidth - 1] x [0, gridHeight - 1].  The svgRect
argument is the bounding client rect of the SVG element when the ref is
present. -/
def getGridCoordinates (svgRect : Option DomRect)
    (gridWidth gridHeight : ℤ) (pixelSize gridGap : ℚ)
    (e : PointerEvent) : Coords :=
  match svgRect with
  | none => { gridX := -1, gridY := -1, buttons := 0 }
  | some rect =>
    let totalWidth := gridWidth * (pixelSize + gridGap)
    let totalHeight := gridHeight * (pixelSize + gridGap)
    let scaleX := rect.width / totalWidth
    let scaleY := rect.height / totalHeight
    let relX := e.clientX - rect.left
    let relY := e.clientY - rect.top
    let normalizedX := relX / scaleX
    let normalizedY := relY / scaleY
    let cellSize := pixelSize + gridGap
    let gridX := ⌊normalizedX / cellSize⌋
    let gridY := ⌊normalizedY / cellSize⌋
    { gridX := max 0 (min gridX (gridWidth - 1))
      gridY := max 0 (min gridY (gridHeight - 1))
      buttons := e.buttons }

/-- In the list out, every element tagged l1 comes strictly before every
element tagged l2. -/
def beforeAll {α : Type} (layerOf : α → Layer) (out : List α) (l1 l2 : Layer) : Prop :=
  ∀ (i j : ℕ) (a b : α), out[i]? = some a → out[j]? = some b →
    layerOf a = l1 → layerOf b = l2 → i < j

theorem beforeAll_of_split {α : Type} (layerOf : α → Layer) (l1 l2 : Layer)
    (xs ys : List α) (h1 : ∀ a ∈ ys, layerOf a ≠ l1) (h2 : ∀ a ∈ xs, layerOf a ≠ l2) :
    beforeAll layerOf (xs ++ ys) l1 l2 := by
  intro i j a b hi hj ha hb
  have hjx : xs.length ≤ j := by
    by_contra hlt
    push_neg at hlt
    rw [List.getElem?_append, if_pos hlt] at hj
    exact h2 b (List.getElem?_mem hj) hb
  have hix : i < xs.length := by
    by_contra hge
    push_neg at hge
    rw [List.getElem?_append, if_neg (by omega)] at hi
    exact h1 a (List.getElem?_mem hi) ha
  omega

theorem mem_renderPass_glow (cfg : RenderConfig) (cells : List (ℤ × ℤ)) :
    ∀ e ∈ (renderPassLists cfg cells).1,
      ∃ (p : ℤ × ℤ) (c : String), e = glowElem cfg p.1 p.2 c := by
  induction cells with
  | nil => simp [renderPassLists]
  | cons c rest ih =>
    intro e he
    simp only [renderPassLists] at he
    rcases hcol : cellColor cfg.pixelData c.1 c.2 with _ | col <;> rw [hcol] at he
    · exact ih e he
    · by_cases hg : cfg.glowEnabled
      · simp only [hg, if_true, List.mem_cons] at he
        rcases he with rfl | he
        · exact ⟨c, col, rfl⟩
        · exact ih e he
      · simp only [hg, if_false] at he
        exact ih e he

theorem mem_renderPass_fill (cfg : RenderConfig) (cells : List (ℤ × ℤ)) :
    ∀ e ∈ (renderPassLists cfg cells).2.1,
      ∃ (p : ℤ × ℤ) (c : String), e = fillElem cfg p.1 p.2 c := by
  induction cells with
  | nil => simp [renderPassLists]
  | cons c rest ih =>
    intro e he
    simp only [renderPassLists] at he
    rcases hcol : cellColor cfg.pixelData c.1 c.2 with _ | col <;> rw [hcol] at he
    · exact ih e he
    · simp only [List.mem_cons] at he
      rcases he with rfl | he
      · exact ⟨c, col, rfl⟩
      · exact ih e he

theorem mem_renderPass_bulb (cfg : RenderConfig) (cells : List (ℤ × ℤ)) :
    ∀ e ∈ (renderPassLists cfg cells).2.2,
      ∃ (p : ℤ × ℤ) (c : String), e = bulbElem cfg p.1 p.2 c := by
  induction cells with
  | nil => simp [renderPassLists]
  | cons c rest ih =>
    intro e he
    simp only [renderPassLists] at he
    rcases hcol : cellColor cfg.pixelData c.1 c.2 with _ | col <;> rw [hcol] at he
    · exact ih e he
    · by_cases hb : cfg.bulbEnabled
      · simp only [hb, if_true, List.mem_cons] at he
        rcases he with rfl | he
        · exact ⟨c, col, rfl⟩
        · exact ih e he
      · simp only [hb, if_false] at he
        exact ih e he

theorem layer_renderPass_glow (cfg : RenderConfig) (cells : List (ℤ × ℤ)) :
    ∀ e ∈ (renderPassLists cfg cells).1, e.layer = Layer.glow := by
  intro e he
  obtain ⟨p, c, rfl⟩ := mem_renderPass_glow cfg cells e he
  rfl

theorem layer_renderPass_fill (cfg : RenderConfig) (cells : List (ℤ × ℤ)) :
    ∀ e ∈ (renderPassLists cfg cells).2.1, e.layer = Layer.fill := by
  intro e he
  obtain ⟨p, c, rfl⟩ := mem_renderPass_fill cfg cells e he
  rfl

theorem layer_renderPass_bulb (cfg : RenderConfig) (cells : List (ℤ × ℤ)) :
    ∀ e ∈ (renderPassLists cfg cells).2.2, e.layer = Layer.bulb := by
  intro e he
  obtain ⟨p, c, rfl⟩ := mem_renderPass_bulb cfg cells e he
  rfl

theorem layer_exportPass (l : Layer) (gridWidth gridHeight : ℕ)
    (grid : List (List (Option String))) (pixelSize gridGap : ℚ) (withColor : Bool) :
    ∀ op ∈ exportPass l gridWidth gridHeight grid pixelSize gridGap withColor,
      op.layer = l := by
  intro op hop
  simp only [exportPass, List.mem_filterMap] at hop
  obtain ⟨c, hc, hmap⟩ := hop
  obtain ⟨col, hcol, hop⟩ := Option.map_eq_some'.mp hmap
  rw [← hop]

theorem renderPixelsOver_order (cfg : RenderConfig) (cells : List (ℤ × ℤ)) :
    beforeAll RenderElem.layer (renderPixelsOver cfg cells) Layer.glow Layer.fill ∧
    beforeAll RenderElem.layer (renderPixelsOver cfg cells) Layer.fill Layer.bulb := by
  constructor
  · rw [renderPixelsOver, List.append_assoc]
    apply beforeAll_of_split
    · intro a ha
      rcases List.mem_append.mp ha with h | h
      · rw [layer_renderPass_fill cfg cells a h]
        simp
      · rw [layer_renderPass_bulb cfg cells a h]
        simp
    · intro a ha
      rw [layer_renderPass_glow cfg cells a ha]
      simp
  · rw [renderPixelsOver]
    apply beforeAll_of_split
    · intro a ha
      rw [layer_renderPass_bulb cfg cells a ha]
      simp
    · intro a ha
      rcases List.mem_append.mp ha with h | h
      · rw [layer_renderPass_glow cfg cells a h]
        simp
      · rw [layer_renderPass_fill cfg cells a h]
        simp

theorem exportOps_order (gridWidth gridHeight : ℕ)
    (grid : List (List (Option String))) (pixelSize gridGap : ℚ) :
    beforeAll DrawOp.layer
      (exportOps gridWidth gridHeight grid pixelSize gridGap true true)
      Layer.glow Layer.fill ∧
    beforeAll DrawOp.layer
      (exportOps gridWidth gridHeight grid pixelSize gridGap true true)
      Layer.fill Layer.bulb := by
  constructor
  · rw [exportOps, if_pos rfl, if_pos rfl, List.append_assoc]
    apply beforeAll_of_split
    · intro a ha
      rcases List.mem_append.mp ha with h | h
      · rw [layer_exportPass _ _ _ _ _ _ _ a h]
        simp
      · rw [layer_exportPass _ _ _ _ _ _ _ a h]
        simp
    · intro a ha
      rw [layer_exportPass _ _ _ _ _ _ _ a ha]
      simp
  · rw [exportOps, if_pos rfl, if_pos rfl]
    apply beforeAll_of_split
    · intro a ha
      rw [layer_exportPass _ _ _ _ _ _ _ a ha]
      simp
    · intro a ha
      rcases List.mem_append.mp ha with h | h
      · rw [layer_exportPass _ _ _ _ _ _ _ a h]
        simp
      · rw [layer_exportPass _ _ _ _ _ _ _ a h]
        simp

/-- C1: with glow and bulb both enabled, the element list emitted by
renderPixels places every glow element before every fill element and
every fill element before every bulb element, for every iteration order
of the cells; and the raster export path issues its drawing calls in the
same glow-then-fill-then-bulb pass order over the full grid. -/
theorem claim1_layer_order (cfg : RenderConfig) (cells : List (ℤ × ℤ))
    (gridWidth gridHeight : ℕ) (grid : List (List (Option String)))
    (pixelSize gridGap : ℚ)
    (_hg : cfg.glowEnabled = true) (_hb : cfg.bulbEnabled = true) :
    (beforeAll RenderElem.layer (renderPixelsOver cfg cells) Layer.glow Layer.fill ∧
     beforeAll RenderElem.layer (renderPixelsOver cfg cells) Layer.fill Layer.bulb) ∧
    (beforeAll DrawOp.layer
       (exportOps gridWidth gridHeight grid pixelSize gridGap true true)
       Layer.glow Layer.fill ∧
     beforeAll DrawOp.layer
       (exportOps gridWidth gridHeight grid pixelSize gridGap true true)
       Layer.fill Layer.bulb) :=
  ⟨renderPixelsOver_order cfg cells,
   exportOps_order gridWidth gridHeight grid pixelSize gridGap⟩

/-- A concrete render configuration with glow and bulb enabled and one
red cell, used to instantiate the layer-order theorem. -/
def cfg1w : RenderConfig :=
  { pixelSize := 10
    gridGap := 0
    pixelShape := Shape.rectangle
    cornerRadius := ⟨false, 0, 0, 0, 0⟩
    customShape := ⟨"", "0 0 100 100"⟩
    glowEnabled := true
    glowSettings := ⟨none, none, none, none, none, none, none⟩
    bulbEnabled := true
    bulbSettings := ⟨none, none, none, none, none, none⟩
    pixelData := [[some "#ff0000"]] }

theorem claim1_layer_order_witness :
    cfg1w.glowEnabled = true ∧ cfg1w.bulbEnabled = true ∧ (0:ℕ) < 1 ∧ (1:ℕ) < 2 :=
  ⟨rfl, rfl,
   (claim1_layer_order cfg1w [(0, 0)] 1 1 [[some "#ff0000"]] 10 0 rfl rfl).1.1 0 1
     (glowElem cfg1w 0 0 "#ff0000") (fillElem cfg1w 0 0 "#ff0000")
     (by simp [renderPixelsOver, renderPassLists, cellColor, cfg1w])
     (by simp [renderPixelsOver, renderPassLists, cellColor, cfg1w]) rfl rfl,
   (claim1_layer_order cfg1w [(0, 0)] 1 1 [[some "#ff0000"]] 10 0 rfl rfl).1.2 1 2
     (fillElem cfg1w 0 0 "#ff0000") (bulbElem cfg1w 0 0 "#ff0000")
     (by simp [renderPixelsOver, renderPassLists, cellColor, cfg1w])
     (by simp [renderPixelsOver, renderPassLists, cellColor, cfg1w]) rfl rfl⟩

/-- C2: for cellSize = pixelSize + gridGap > 0 and grid dimensions at
least 1, the computed visible range contains every in-grid cell whose
rectangle meets the raw viewport rectangle; it equals the raw index
range expanded by 5 cells per side and clamped to the grid's index
interval; and the 4x4 grid, cellSize 10, viewport 15x15 example gives
the full range 0..4 in both axes. -/
theorem claim2_visible_range (vp : Viewport) (pixelSize gridGap : ℚ)
    (gridWidth gridHeight : ℤ) (hc : 0 < pixelSize + gridGap)
    (_hW : 1 ≤ gridWidth) (_hH : 1 ≤ gridHeight) :
    (∀ x y : ℤ, 0 ≤ x → x < gridWidth → 0 ≤ y → y < gridHeight →
      (x : ℚ) * (pixelSize + gridGap) ≤ vp.left + vp.width →
      vp.left ≤ ((x : ℚ) + 1) * (pixelSize + gridGap) →
      (y : ℚ) * (pixelSize + gridGap) ≤ vp.top + vp.height →
      vp.top ≤ ((y : ℚ) + 1) * (pixelSize + gridGap) →
      ((visibleArea vp pixelSize gridGap gridWidth gridHeight).startX ≤ x ∧
       x < (visibleArea vp pixelSize gridGap gridWidth gridHeight).endX ∧
       (visibleArea vp pixelSize gridGap gridWidth gridHeight).startY ≤ y ∧
       y < (visibleArea vp pixelSize gridGap gridWidth gridHeight).endY)) ∧
    visibleArea vp pixelSize gridGap gridWidth gridHeight =
      visibleAreaSpec vp pixelSize gridGap gridWidth gridHeight ∧
    visibleArea ⟨0, 0, 15, 15, 1⟩ 10 0 4 4 = ⟨0, 4, 0, 4⟩ := by
  refine ⟨?_, ?_, ?_⟩
  · intro x y hx0 hxW hy0 hyH hxiv hxvi hyiv hyvi
    have hfx : ⌊vp.left / (pixelSize + gridGap)⌋ ≤ x + 1 := by
      have h1 : vp.left / (pixelSize + gridGap) ≤ (x : ℚ) + 1 :=
        (div_le_iff₀ hc).mpr hxvi
      have h2 := Int.floor_le_floor h1
      rwa [show ((x : ℚ) + 1) = ((x + 1 : ℤ) : ℚ) by push_cast; ring,
        Int.floor_intCast] at h2
    have hcx : x ≤ ⌈(vp.left + vp.width) / (pixelSize + gridGap)⌉ := by
      have h1 : (x : ℚ) ≤ (vp.left + vp.width) / (pixelSize + gridGap) :=
        (le_div_iff₀ hc).mpr hxiv
      have h2 := Int.ceil_le_ceil h1
      rwa [Int.ceil_intCast] at h2
    have hfy : ⌊vp.top / (pixelSize + gridGap)⌋ ≤ y + 1 := by
      have h1 : vp.top / (pixelSize + gridGap) ≤ (y : ℚ) + 1 :=
        (div_le_iff₀ hc).mpr hyvi
      have h2 := Int.floor_le_floor h1
      rwa [show ((y : ℚ) + 1) = ((y + 1 : ℤ) : ℚ) by push_cast; ring,
        Int.floor_intCast] at h2
    have hcy : y ≤ ⌈(vp.top + vp.height) / (pixelSize + gridGap)⌉ := by
      have h1 : (y : ℚ) ≤ (vp.top + vp.height) / (pixelSize + gridGap) :=
        (le_div_iff₀ hc).mpr hyiv
      have h2 := Int.ceil_le_ceil h1
      rwa [Int.ceil_intCast] at h2
    simp only [visibleArea]
    omega
  · simp only [visibleArea, visibleAreaSpec, VisibleRange.mk.injEq]
    exact ⟨max_comm 0 _, min_comm gridWidth _, max_comm 0 _, min_comm gridHeight _⟩
  · have e2 : (⌈(3:ℚ) / 2⌉ : ℤ) = 2 := by norm_num [Int.ceil_eq_iff]
    simp only [visibleArea, VisibleRange.mk.injEq]
    norm_num
    omega

theorem claim2_visible_range_witness :
    (0:ℚ) < 10 + 0 ∧ (1:ℤ) ≤ 4 ∧
    ((visibleArea ⟨0, 0, 15, 15, 1⟩ 10 0 4 4).startX ≤ 1 ∧
     1 < (visibleArea ⟨0, 0, 15, 15, 1⟩ 10 0 4 4).endX ∧
     (visibleArea ⟨0, 0, 15, 15, 1⟩ 10 0 4 4).startY ≤ 0 ∧
     0 < (visibleArea ⟨0, 0, 15, 15, 1⟩ 10 0 4 4).endY) :=
  ⟨by norm_num, by norm_num,
   (claim2_visible_range ⟨0, 0, 15, 15, 1⟩ 10 0 4 4 (by norm_num) (by norm_num)
       (by norm_num)).1 1 0 (by norm_num) (by norm_num) (by norm_num) (by norm_num)
     (by norm_num) (by norm_num) (by norm_num) (by norm_num)⟩

theorem stepCache_length (cache : PathCache) (a : PathArgs)
    (h : cache.length ≤ pathCacheLimit) :
    (stepCache cache a).length ≤ pathCacheLimit := by
  simp only [stepCache, createShapePath]
  rcases hl : cacheLookup (mkPathKey a.x a.y a.size a.shape a.cr a.cs) cache with _ | p
  · simp only []
    split
    · next hcond =>
      simp only [List.length_tail, List.length_append, List.length_cons,
        List.length_nil] at *
      omega
    · next hcond =>
      simp only [List.length_append, List.length_cons, List.length_nil] at *
      omega
  · simpa using h

theorem foldl_stepCache_length (calls : List PathArgs) :
    ∀ cache : PathCache, cache.length ≤ pathCacheLimit →
      (calls.foldl stepCache cache).length ≤ pathCacheLimit := by
  induction calls with
  | nil => intro cache h; simpa using h
  | cons a rest ih =>
    intro cache h
    rw [List.foldl_cons]
    exact ih _ (stepCache_length cache a h)

/-- C3: starting from the empty module-level cache, after every sequence
of createShapePath calls the cache holds at most 1000 entries; and when
an insertion makes the cache exceed capacity, the resulting cache is the
old one minus its head (the earliest insertion) plus the new entry at
the end - exactly one entry is evicted and it is the oldest. -/
theorem claim3_cache_fifo :
    (∀ calls : List PathArgs, (runCalls calls).length ≤ pathCacheLimit) ∧
    (∀ (cache : PathCache) (a : PathArgs),
      cacheLookup (mkPathKey a.x a.y a.size a.shape a.cr a.cs) cache = none →
      cache.length = pathCacheLimit →
      stepCache cache a =
        cache.tail ++
          [(mkPathKey a.x a.y a.size a.shape a.cr a.cs,
            computeShapePath a.x a.y a.size a.shape a.cr a.cs)]) := by
  constructor
  · intro calls
    exact foldl_stepCache_length calls [] (by simp)
  · intro cache a hmiss hlen
    have hcond : pathCacheLimit <
        (cache ++ [(mkPathKey a.x a.y a.size a.shape a.cr a.cs,
          computeShapePath a.x a.y a.size a.shape a.cr a.cs)]).length := by
      rw [List.length_append, hlen]
      simp
    simp only [stepCache, createShapePath, hmiss, if_pos hcond]
    cases cache with
    | nil => simp [pathCacheLimit] at hlen
    | cons x t => simp

/-- A key already residing in the cache for the eviction witness. -/
def keyA : PathKey := ⟨0, 0, 0, Shape.rectangle, ⟨false, 0, 0, 0, 0⟩, ""⟩

/-- A full cache of 1000 entries for the eviction witness. -/
def cacheFull : PathCache := List.replicate 1000 (keyA, PathData.raw "p")

/-- Arguments whose key misses cacheFull, for the eviction witness. -/
def argsB : PathArgs := ⟨1, 0, 0, Shape.rectangle, ⟨false, 0, 0, 0, 0⟩, ⟨"", ""⟩⟩

theorem cacheLookup_replicate_none (k k2 : PathKey) (v : PathData)
    (hne : k2 ≠ k) : ∀ n, cacheLookup k (List.replicate n (k2, v)) = none := by
  intro n
  induction n with
  | zero => rfl
  | succ m ih => rw [List.replicate_succ]; simp [cacheLookup, hne, ih]

theorem claim3_cache_fifo_witness :
    cacheLookup (mkPathKey argsB.x argsB.y argsB.size argsB.shape argsB.cr argsB.cs)
      cacheFull = none ∧
    cacheFull.length = pathCacheLimit ∧
    stepCache cacheFull argsB =
      List.replicate 999 (keyA, PathData.raw "p") ++
        [(mkPathKey argsB.x argsB.y argsB.size argsB.shape argsB.cr argsB.cs,
          computeShapePath argsB.x argsB.y argsB.size argsB.shape argsB.cr argsB.cs)] := by
  have h1 : cacheLookup (mkPathKey argsB.x argsB.y argsB.size argsB.shape argsB.cr
      argsB.cs) cacheFull = none :=
    cacheLookup_replicate_none _ keyA _ (by decide) 1000
  have h2 : cacheFull.length = pathCacheLimit := by
    rw [show cacheFull = List.replicate 1000 (keyA, PathData.raw "p") from rfl,
      List.length_replicate]
    rfl
  refine ⟨h1, h2, ?_⟩
  rw [claim3_cache_fifo.2 cacheFull argsB h1 h2]
  congr 1

/-- C4: for the rectangle shape with corner radius enabled, the path is
the rounded rectangle whose per-corner radius is
min(size * percentage / 100, size / 2), computed independently per
corner; consequently topLeft = 150 produces the same path as
topLeft = 100. -/
theorem claim4_corner_clamp (x y size : ℚ) (cr : CornerRadius)
    (cs : CustomShape) (hen : cr.enabled = true) (hs : 0 ≤ size) :
    computeShapePath x y size Shape.rectangle cr cs =
      roundedRectPath x y size
        (min (size * cr.topLeft / 100) (size / 2))
        (min (size * cr.topRight / 100) (size / 2))
        (min (size * cr.bottomLeft / 100) (size / 2))
        (min (size * cr.bottomRight / 100) (size / 2)) ∧
    computeShapePath x y size Shape.rectangle { cr with topLeft := 150 } cs =
      computeShapePath x y size Shape.rectangle { cr with topLeft := 100 } cs := by
  constructor
  · simp [computeShapePath, hen]
  · have hne : ¬(Shape.rectangle = Shape.custom ∧ ¬cs.path = "") := by simp
    have h150 : min (size * 150 / 100) (size / 2) = size / 2 := by
      apply min_eq_right
      linarith
    have h100 : min (size * 100 / 100) (size / 2) = size / 2 := by
      apply min_eq_right
      linarith
    simp only [computeShapePath, hen, if_true]
    rw [if_neg hne, if_neg hne, h150, h100]

theorem claim4_corner_clamp_witness :
    (⟨true, 0, 20, 30, 40⟩ : CornerRadius).enabled = true ∧ (0:ℚ) ≤ 10 ∧
    computeShapePath 0 0 10 Shape.rectangle
        { (⟨true, 0, 20, 30, 40⟩ : CornerRadius) with topLeft := 150 } ⟨"", ""⟩ =
      computeShapePath 0 0 10 Shape.rectangle
        { (⟨true, 0, 20, 30, 40⟩ : CornerRadius) with topLeft := 100 } ⟨"", ""⟩ :=
  ⟨rfl, by norm_num,
   (claim4_corner_clamp 0 0 10 ⟨true, 0, 20, 30, 40⟩ ⟨"", ""⟩ rfl (by norm_num)).2⟩

/-- C5: for shape custom with a non-empty path, the generator returns
the caller-supplied path verbatim; the result does not depend on x, y,
size, the corner radius, or the declared viewBox (no rescaling to the
cell size). -/
theorem claim5_custom_verbatim (x y size x2 y2 size2 : ℚ)
    (cr cr2 : CornerRadius) (cs cs2 : CustomShape)
    (hp : cs.path ≠ "") (hpp : cs2.path = cs.path) :
    computeShapePath x y size Shape.custom cr cs = PathData.raw cs.path ∧
    computeShapePath x y size Shape.custom cr cs =
      computeShapePath x2 y2 size2 Shape.custom cr2 cs2 := by
  constructor
  · simp [computeShapePath, hp]
  · simp [computeShapePath, hp, hpp]

theorem claim5_custom_verbatim_witness :
    ("M 0 0 L 5 9 Z" : String) ≠ "" ∧
    computeShapePath 0 0 10 Shape.custom ⟨false, 0, 0, 0, 0⟩
        ⟨"M 0 0 L 5 9 Z", "0 0 100 100"⟩ =
      computeShapePath 7 3 25 Shape.custom ⟨true, 10, 10, 10, 10⟩
        ⟨"M 0 0 L 5 9 Z", "0 0 10 10"⟩ :=
  ⟨by decide,
   (claim5_custom_verbatim 0 0 10 7 3 25 ⟨false, 0, 0, 0, 0⟩ ⟨true, 10, 10, 10, 10⟩
     ⟨"M 0 0 L 5 9 Z", "0 0 100 100"⟩ ⟨"M 0 0 L 5 9 Z", "0 0 10 10"⟩
     (by decide) rfl).2⟩

/-- A bulb configuration with positionX present and equal to 0. -/
def bsZero : BulbSettings :=
  { intensity := none
    radius := none
    positionX := some 0
    positionY := none
    color := none
    blendMode := none }

/-- C6 counterexample: with positionX present and equal to 0, the
gradient the source builds is not the gradient the claim describes - the
JS logical-or defaulting turns the present value 0 into 50, so the
defaults do not apply only when a field is absent. -/
theorem claim6_counterexample :
    bulbGradient bsZero ≠ bulbGradientClaim bsZero := by
  intro h
  have hcx := congrArg BulbGradient.cx h
  simp [bulbGradient, bulbGradientClaim, bsZero, jsOrQ] at hcx

/-- C6 amended: the bulb highlight of every rendered cell is the cell
shape filled with a reference to the radial gradient whose center is
(positionX percent, positionY percent), radius radius percent, inner
stop the configured color at intensity / 100 opacity, outer stop fully
transparent, composited with the configured blend mode (default screen);
positionX, positionY and radius take the default 50, and intensity the
default 0, when the corresponding field is absent or present with the
value 0. -/
theorem claim6_bulb_gradient (bs : BulbSettings) (cfg : RenderConfig)
    (cells : List (ℤ × ℤ)) (_hbe : cfg.bulbEnabled = true)
    (hbs : cfg.bulbSettings = bs) :
    bulbGradient bs = bulbGradientAmended bs ∧
    (∀ e ∈ (renderPassLists cfg cells).2.2,
      e.layer = Layer.bulb ∧
      e.fill = FillSpec.gradientRef "bulbGradient" ∧
      e.blendMode = some (jsOrS bs.blendMode "screen")) := by
  constructor
  · rfl
  · intro e he
    obtain ⟨p, c, rfl⟩ := mem_renderPass_bulb cfg cells e he
    exact ⟨rfl, rfl, by rw [← hbs]; rfl⟩

theorem claim6_bulb_gradient_witness :
    cfg1w.bulbEnabled = true ∧
    cfg1w.bulbSettings = (⟨none, none, none, none, none, none⟩ : BulbSettings) ∧
    bulbGradient ⟨none, none, none, none, none, none⟩ =
      bulbGradientAmended ⟨none, none, none, none, none, none⟩ ∧
    ((bulbElem cfg1w 0 0 "#ff0000").layer = Layer.bulb ∧
     (bulbElem cfg1w 0 0 "#ff0000").fill = FillSpec.gradientRef "bulbGradient" ∧
     (bulbElem cfg1w 0 0 "#ff0000").blendMode =
       some (jsOrS (⟨none, none, none, none, none, none⟩ : BulbSettings).blendMode
         "screen")) :=
  ⟨rfl, rfl,
   (claim6_bulb_gradient ⟨none, none, none, none, none, none⟩ cfg1w [(0, 0)] rfl rfl).1,
   (claim6_bulb_gradient ⟨none, none, none, none, none, none⟩ cfg1w [(0, 0)] rfl rfl).2
     (bulbElem cfg1w 0 0 "#ff0000")
     (by simp [renderPassLists, cellColor, cfg1w])⟩

/-- C7: a sampled-pixel record is in the list handed to the quantizer
exactly when some position i of the target-resolution image data holds a
pixel whose alpha strictly exceeds 128, and the record carries that
pixel's r, g, b and the flattened row-major position i. -/
theorem claim7_import_sampling (data : List RGBA) (sp : SampledPixel) :
    sp ∈ samplePixels data ↔
      ∃ (i : ℕ) (px : RGBA), data[i]? = some px ∧ 128 < px.a ∧
        sp = ⟨px.r, px.g, px.b, i⟩ := by
  have key : ∀ (l : List RGBA) (k : ℕ),
      sp ∈ samplePixelsFrom k l ↔
        ∃ (i : ℕ) (px : RGBA), l[i]? = some px ∧ 128 < px.a ∧
          sp = ⟨px.r, px.g, px.b, k + i⟩ := by
    intro l
    induction l with
    | nil => intro k; simp [samplePixelsFrom]
    | cons p rest ih =>
      intro k
      by_cases h : 128 < p.a
      · rw [samplePixelsFrom, if_pos h, List.mem_cons]
        constructor
        · rintro (rfl | hmem)
          · exact ⟨0, p, by simp, h, by simp⟩
          · obtain ⟨i, px, hpx, ha, rfl⟩ := (ih (k + 1)).mp hmem
            exact ⟨i + 1, px, by simpa using hpx, ha, by
              have : k + 1 + i = k + (i + 1) := by omega
              rw [this]⟩
        · rintro ⟨i, px, hpx, ha, rfl⟩
          cases i with
          | zero =>
            simp only [List.getElem?_cons_zero, Option.some.injEq] at hpx
            subst hpx
            left
            simp
          | succ j =>
            right
            apply (ih (k + 1)).mpr
            refine ⟨j, px, by simpa using hpx, ha, ?_⟩
            have : k + (j + 1) = k + 1 + j := by omega
            rw [this]
      · rw [samplePixelsFrom, if_neg h]
        rw [ih (k + 1)]
        constructor
        · rintro ⟨i, px, hpx, ha, rfl⟩
          exact ⟨i + 1, px, by simpa using hpx, ha, by
            have : k + 1 + i = k + (i + 1) := by omega
            rw [this]⟩
        · rintro ⟨i, px, hpx, ha, rfl⟩
          cases i with
          | zero =>
            simp only [List.getElem?_cons_zero, Option.some.injEq] at hpx
            subst hpx
            exact absurd ha h
          | succ j =>
            refine ⟨j, px, by simpa using hpx, ha, ?_⟩
            have : k + (j + 1) = k + 1 + j := by omega
            rw [this]
  simpa using key data 0

/-- C8: if the parsed width is not positive, or the parsed height is not
positive, or the parsed color limit is outside [2, 256] (none models
NaN, for which every comparison is false), the import handler returns
before any processing: the state - grid dimensions, pixel grid and color
history - is unchanged and the processing (including the quantizer call)
never runs. -/
theorem claim8_invalid_settings (process : ImportState → ImportState)
    (st : ImportState) (w h k : Option ℤ)
    (hbad : (match w with | none => True | some v => v ≤ 0) ∨
            (match h with | none => True | some v => v ≤ 0) ∨
            (match k with | none => True | some v => v < 2 ∨ 256 < v)) :
    handleImageImport process st w h k = (st, false) := by
  have hvalid : importSettingsValid w h k = false := by
    rcases hbad with hb | hb | hb
    · cases w with
      | none => simp [importSettingsValid]
      | some v =>
        simp only at hb
        simp [importSettingsValid, decide_eq_false_iff_not]
        intro hpos
        omega
    · cases h with
      | none => simp [importSettingsValid]
      | some v =>
        simp only at hb
        simp [importSettingsValid, decide_eq_false_iff_not]
        intro _ hpos
        omega
    · cases k with
      | none => simp [importSettingsValid]
      | some v =>
        simp only at hb
        simp [importSettingsValid, decide_eq_false_iff_not]
        intro _ _ h2
        omega
  rw [handleImageImport, hvalid]
  simp

/-- A concrete import state for the invalid-settings witness. -/
def st8 : ImportState := ⟨32, 32, [[some "#ffffff"]], ["#ffffff"]⟩

theorem claim8_invalid_settings_witness :
    handleImageImport id st8 (some 0) (some 16) (some 32) = (st8, false) :=
  claim8_invalid_settings id st8 (some 0) (some 16) (some 32)
    (Or.inl (by norm_num))

theorem mem_intRangeIncl (a b x : ℤ) (hx : x ∈ intRangeIncl a b) :
    a ≤ x ∧ x ≤ b := by
  rw [intRangeIncl] at hx
  obtain ⟨i, hi, rfl⟩ := List.mem_map.mp hx
  rw [List.mem_range] at hi
  have := Int.lt_toNat.mp hi
  omega

/-- C9: when the grid overlay is enabled, the grid layer is the last
SVG child - drawn above the pixels layer that holds the glow, fill and
highlight elements - and every grid line is a stroke of width 1 placed
at a cell-boundary coordinate inside the visible range (not at every
boundary of the whole grid). -/
theorem claim9_grid_overlay (cfg : RenderConfig) (va : VisibleRange)
    (totalWidth totalHeight : ℚ) :
    svgChildren cfg true va totalWidth totalHeight =
      [SvgChild.pixelsLayer (renderPixels cfg va), SvgChild.interactionLayer,
       SvgChild.gridLayer
         (gridLinesList cfg.pixelSize cfg.gridGap va totalWidth totalHeight)] ∧
    (svgChildren cfg true va totalWidth totalHeight).getLast? =
      some (SvgChild.gridLayer
        (gridLinesList cfg.pixelSize cfg.gridGap va totalWidth totalHeight)) ∧
    (∀ l ∈ gridLinesList cfg.pixelSize cfg.gridGap va totalWidth totalHeight,
      l.strokeWidth = 1 ∧
      ((∃ x : ℤ, va.startX ≤ x ∧ x ≤ va.endX ∧
          l.x1 = x * (cfg.pixelSize + cfg.gridGap) - 1/2 ∧ l.x2 = l.x1 ∧
          l.y1 = 0 ∧ l.y2 = totalHeight) ∨
       (∃ y : ℤ, va.startY ≤ y ∧ y ≤ va.endY ∧
          l.y1 = y * (cfg.pixelSize + cfg.gridGap) - 1/2 ∧ l.y2 = l.y1 ∧
          l.x1 = 0 ∧ l.x2 = totalWidth))) := by
  refine ⟨?_, ?_, ?_⟩
  · simp [svgChildren, gridLines]
  · simp [svgChildren, gridLines]
  · intro l hl
    simp only [gridLinesList, List.mem_append, List.mem_map] at hl
    rcases hl with ⟨x, hx, rfl⟩ | ⟨y, hy, rfl⟩
    · obtain ⟨hx1, hx2⟩ := mem_intRangeIncl _ _ _ hx
      exact ⟨rfl, Or.inl ⟨x, hx1, hx2, rfl, rfl, rfl, rfl⟩⟩
    · obtain ⟨hy1, hy2⟩ := mem_intRangeIncl _ _ _ hy
      exact ⟨rfl, Or.inr ⟨y, hy1, hy2, rfl, rfl, rfl, rfl⟩⟩

/-- A small visible range for the grid-overlay witness. -/
def va9 : VisibleRange := ⟨0, 1, 0, 1⟩

theorem claim9_grid_overlay_witness :
    svgChildren cfg1w true va9 10 10 =
      [SvgChild.pixelsLayer (renderPixels cfg1w va9), SvgChild.interactionLayer,
       SvgChild.gridLayer (gridLinesList cfg1w.pixelSize cfg1w.gridGap va9 10 10)] ∧
    ((⟨-(1/2), 0, -(1/2), 10, 1⟩ : GridLine).strokeWidth = 1 ∧
     ((∃ x : ℤ, va9.startX ≤ x ∧ x ≤ va9.endX ∧
         (⟨-(1/2), 0, -(1/2), 10, 1⟩ : GridLine).x1 =
           x * (cfg1w.pixelSize + cfg1w.gridGap) - 1/2 ∧
         (⟨-(1/2), 0, -(1/2), 10, 1⟩ : GridLine).x2 =
           (⟨-(1/2), 0, -(1/2), 10, 1⟩ : GridLine).x1 ∧
         (⟨-(1/2), 0, -(1/2), 10, 1⟩ : GridLine).y1 = 0 ∧
         (⟨-(1/2), 0, -(1/2), 10, 1⟩ : GridLine).y2 = 10) ∨
      (∃ y : ℤ, va9.startY ≤ y ∧ y ≤ va9.endY ∧
         (⟨-(1/2), 0, -(1/2), 10, 1⟩ : GridLine).y1 =
           y * (cfg1w.pixelSize + cfg1w.gridGap) - 1/2 ∧
         (⟨-(1/2), 0, -(1/2), 10, 1⟩ : GridLine).y2 =
           (⟨-(1/2), 0, -(1/2), 10, 1⟩ : GridLine).y1 ∧
         (⟨-(1/2), 0, -(1/2), 10, 1⟩ : GridLine).x1 = 0 ∧
         (⟨-(1/2), 0, -(1/2), 10, 1⟩ : GridLine).x2 = 10))) :=
  ⟨(claim9_grid_overlay cfg1w va9 10 10).1,
   (claim9_grid_overlay cfg1w va9 10 10).2.2 ⟨-(1/2), 0, -(1/2), 10, 1⟩
     (by
       simp only [gridLinesList, intRangeIncl, va9, cfg1w]
       norm_num)⟩

/-- C10: for a grid with both dimensions at least 1, when the SVG
element exists the returned grid coordinates are clamped into
[0, gridWidth - 1] x [0, gridHeight - 1]; gridX = gridY = -1 is
returned exactly when the ref is null, so the sentinel never collides
with a clamped in-grid result. -/
theorem claim10_pointer_clamp (rect : DomRect) (gridWidth gridHeight : ℤ)
    (pixelSize gridGap : ℚ) (e : PointerEvent)
    (hW : 1 ≤ gridWidth) (hH : 1 ≤ gridHeight) :
    (0 ≤ (getGridCoordinates (some rect) gridWidth gridHeight pixelSize gridGap e).gridX ∧
     (getGridCoordinates (some rect) gridWidth gridHeight pixelSize gridGap e).gridX ≤
       gridWidth - 1 ∧
     0 ≤ (getGridCoordinates (some rect) gridWidth gridHeight pixelSize gridGap e).gridY ∧
     (getGridCoordinates (some rect) gridWidth gridHeight pixelSize gridGap e).gridY ≤
       gridHeight - 1) ∧
    getGridCoordinates none gridWidth gridHeight pixelSize gridGap e =
      ⟨-1, -1, 0⟩ ∧
    ((getGridCoordinates (some rect) gridWidth gridHeight pixelSize gridGap e).gridX ≠ -1 ∧
     (getGridCoordinates (some rect) gridWidth gridHeight pixelSize gridGap e).gridY ≠ -1) := by
  have hmain :
      0 ≤ (getGridCoordinates (some rect) gridWidth gridHeight pixelSize gridGap e).gridX ∧
      (getGridCoordinates (some rect) gridWidth gridHeight pixelSize gridGap e).gridX ≤
        gridWidth - 1 ∧
      0 ≤ (getGridCoordinates (some rect) gridWidth gridHeight pixelSize gridGap e).gridY ∧
      (getGridCoordinates (some rect) gridWidth gridHeight pixelSize gridGap e).gridY ≤
        gridHeight - 1 := by
    simp only [getGridCoordinates]
    omega
  exact ⟨hmain, rfl, by omega, by omega⟩

/-- A concrete rect and event for the pointer-clamp witness. -/
def rect10 : DomRect := ⟨0, 0, 40, 40⟩

/-- A concrete pointer event outside the drawing, for the clamp witness. -/
def ev10 : PointerEvent := ⟨500, -3, 1⟩

theorem claim10_pointer_clamp_witness :
    (0 ≤ (getGridCoordinates (some rect10) 4 4 10 0 ev10).gridX ∧
     (getGridCoordinates (some rect10) 4 4 10 0 ev10).gridX ≤ 4 - 1 ∧
     0 ≤ (getGridCoordinates (some rect10) 4 4 10 0 ev10).gridY ∧
     (getGridCoordinates (some rect10) 4 4 10 0 ev10).gridY ≤ 4 - 1) ∧
    getGridCoordinates none 4 4 10 0 ev10 = ⟨-1, -1, 0⟩ :=
  ⟨(claim10_pointer_clamp rect10 4 4 10 0 ev10 (by norm_num) (by norm_num)).1,
   (claim10_pointer_clamp rect10 4 4 10 0 ev10 (by norm_num) (by norm_num)).2.1⟩

end PixelPop
